import Mathlib

/-!
Shallow embedding of `tools/codegen/pkg/swaggerdocs/swaggerdocs.go`.

The file contains two functions, `verifySwaggerDocs` and `generateSwaggerDocs`,
which call four external services: the documentation-completeness checker
`kruntime.VerifySwaggerDocsExist`, the per-record code renderer
`kruntime.WriteSwaggerDocFunc`, the source formatter `format.Source`, and the
file system (`ioutil.ReadFile`).  The embedding takes these services as
explicit parameters; concrete instances modelled from the specification's
description of each service are provided further below for evaluation.
File contents and generated artifacts are modelled as `String` (the Go code
works with `[]byte` holding UTF-8 source text and compares it with
`reflect.DeepEqual`, which on the byte slices produced here is element-wise
equality).
-/

/-- One type together with the ordered `(field name, description)` pairs
documenting it (the spec's `DocumentationRecord`, the element type of the
Go slice `[]kruntime.KubeTypes`). -/
structure DocumentationRecord where
  typeName : String
  fields : List (String × String)
deriving DecidableEq

/-- The file system: a partial map from paths to file contents.
`none` means the path cannot be read. -/
def FS : Type := String → Option String

/-- The external completeness checker: on success it returns the count of
undocumented fields, the human-readable listing it wrote to the buffer, and
the (possibly mutated/annotated) records; on failure an error message. -/
def Checker : Type :=
  List DocumentationRecord → Except String (Nat × String × List DocumentationRecord)

/-- The external per-record code renderer (`kruntime.WriteSwaggerDocFunc`):
returns the rendered documentation code appended to the buffer, or an error. -/
def Renderer : Type := List DocumentationRecord → Except String String

/-- The external canonical source formatter (`format.Source`): returns the
formatted source, or an error when the text is not syntactically valid. -/
def Formatter : Type := String → Except String String

/-- Error outcomes of `generateSwaggerDocs`: the renderer failed on a record,
or the assembled text could not be formatted.  Each constructor carries the
wrapped message the Go code builds with `fmt.Errorf`. -/
inductive GenError where
  | renderError (msg : String)
  | formatError (msg : String)
deriving DecidableEq

/-- Error outcomes of `verifySwaggerDocs`, one constructor per `return`
statement of the Go function that yields a non-nil error. -/
inductive VerifyError where
  | checkerError (msg : String)
  | missingDocsError (count : Nat) (listing : String)
  | readError (msg : String)
  | generationError (e : GenError)
  | staleError
deriving DecidableEq

/-- The pipeline stages of `verifySwaggerDocs`, recorded in order so that
claims about a stage never being reached can be stated. -/
inductive Stage where
  | completenessCheck
  | readBaseline
  | regenerate
  | compare
deriving DecidableEq

/-- Everything a `verifySwaggerDocs` call produces: the returned error (or
success), the warnings logged via `klog.Warningf`, the stages that ran, and
the file system afterwards. -/
structure VerifyOutcome where
  result : Except VerifyError Unit
  warnings : List String
  stages : List Stage
  fs : FS

/-- Go constant `headerContent`: the header boilerplate applied to swagger
generated files, ending with the start marker. -/
def headerContent : String :=
  "// This file contains a collection of methods that can be used from go-restful to\n" ++
  "// generate Swagger API documentation for its models. Please read this PR for more\n" ++
  "// information on the implementation: https://github.com/emicklei/go-restful/pull/215\n" ++
  "//\n" ++
  "// TODOs are ignored from the parser (e.g. TODO(andronat):... || TODO:...) if and only if\n" ++
  "// they are on one line! For multiple line or blocks that you want to ignore use ---.\n" ++
  "// Any context after a --- is ignored.\n" ++
  "//\n" ++
  "// Those methods can be generated by using hack/update-swagger-docs.sh\n" ++
  "\n" ++
  "// AUTO-GENERATED FUNCTIONS START HERE\n"

/-- Go constant `footerContent`: the footer boilerplate (the end marker). -/
def footerContent : String := "// AUTO-GENERATED FUNCTIONS END HERE\n"

/-- Go constant `DefaultOutputFileName`. -/
def DefaultOutputFileName : String := "zz_generated.swagger_doc_generated.go"

/-- Go constant `typesGlob`. -/
def typesGlob : String := "types*.go"

/-- The text `generateSwaggerDocs` accumulates in its buffer before handing
it to the formatter: package line, header, rendered records, footer. -/
def assembledSource (packageName rendered : String) : String :=
  "package " ++ packageName ++ "\n" ++ headerContent ++ rendered ++ footerContent

/-- Embedding of `generateSwaggerDocs`: render the records, assemble the
buffer, format it; error messages are wrapped exactly as the Go code does. -/
def generateSwaggerDocs (render : Renderer) (formatSource : Formatter)
    (packageName : String) (docsForTypes : List DocumentationRecord) :
    Except GenError String :=
  match render docsForTypes with
  | .error e => .error (.renderError ("error generating swagger docs for types: " ++ e))
  | .ok rendered =>
    match formatSource (assembledSource packageName rendered) with
    | .error e => .error (.formatError ("could not format output data: " ++ e))
    | .ok formattedOut => .ok formattedOut

/-- Embedding of `ioutil.ReadFile`: reading never changes the file system;
a missing file yields the usual operating-system error message. -/
def readFile (fs : FS) (filePath : String) : Except String String × FS :=
  match fs filePath with
  | none => (.error ("open " ++ filePath ++ ": no such file or directory"), fs)
  | some data => (.ok data, fs)

/-- Writing a file: used only by callers (the round-trip scenario); the
verifier and generator themselves never invoke it. -/
def writeFile (fs : FS) (filePath content : String) : FS :=
  fun p => if p = filePath then some content else fs p

/-- The file system with no readable files. -/
def emptyFS : FS := fun _ => none

/-- The warning `klog.Warningf` logs when docs are missing but
`enforceComments` is false. -/
def missingDocsWarning (rc : Nat) (listing : String) : String :=
  "Existing swagger docs are missing " ++ toString rc ++ " entries:\n" ++ listing

/-- The tail of `verifySwaggerDocs` after the completeness gate: read the
baseline, regenerate from the (possibly mutated) records, byte-compare. -/
def verifyRest (render : Renderer) (formatSource : Formatter) (fs : FS)
    (packageName filePath : String) (docsChecked : List DocumentationRecord)
    (warnings : List String) : VerifyOutcome :=
  match readFile fs filePath with
  | (.error e, fs₁) =>
    ⟨.error (.readError ("error reading existing swagger docs file: " ++ e)),
      warnings, [.completenessCheck, .readBaseline], fs₁⟩
  | (.ok data, fs₁) =>
    match generateSwaggerDocs render formatSource packageName docsChecked with
    | .error e =>
      ⟨.error (.generationError e), warnings,
        [.completenessCheck, .readBaseline, .regenerate], fs₁⟩
    | .ok generatedData =>
      if data = generatedData then
        ⟨.ok (), warnings,
          [.completenessCheck, .readBaseline, .regenerate, .compare], fs₁⟩
      else
        ⟨.error .staleError, warnings,
          [.completenessCheck, .readBaseline, .regenerate, .compare], fs₁⟩

/-- Embedding of `verifySwaggerDocs`: run the completeness checker, apply the
`enforceComments` policy gate, then read the baseline, regenerate from the
records the checker returned (the Go comment notes the ordering dependency),
and compare for exact equality. -/
def verifySwaggerDocs (checker : Checker) (render : Renderer)
    (formatSource : Formatter) (fs : FS) (packageName filePath : String)
    (docsForTypes : List DocumentationRecord) (enforceComments : Bool) :
    VerifyOutcome :=
  match checker docsForTypes with
  | .error e =>
    ⟨.error (.checkerError ("could not verify existing docs: " ++ e)),
      [], [.completenessCheck], fs⟩
  | .ok (rc, listing, docsChecked) =>
    if 0 < rc then
      if enforceComments then
        ⟨.error (.missingDocsError rc listing), [], [.completenessCheck], fs⟩
      else
        verifyRest render formatSource fs packageName filePath docsChecked
          [missingDocsWarning rc listing]
    else
      verifyRest render formatSource fs packageName filePath docsChecked []

/-- The undocumented fields of a record collection: every
`(type name, field name)` pair whose description is empty. -/
def missingFields (docs : List DocumentationRecord) : List (String × String) :=
  (docs.map (fun t =>
    t.fields.filterMap (fun f =>
      if f.2 = "" then some (t.typeName, f.1) else none))).flatten

/-- Modelled from the spec: the external doc-completeness checker
`kruntime.VerifySwaggerDocsExist` is missing from the sources; the spec says
it "checks every documented field has a non-empty description" and "takes
records, returns missing-count + report".  The model counts the fields with
empty descriptions, reports them one per line, succeeds on every input, and
returns the records unchanged. -/
def specChecker : Checker := fun docs =>
  .ok ((missingFields docs).length,
    String.join ((missingFields docs).map (fun p => p.1 ++ "." ++ p.2 ++ "\n")),
    docs)

/-- Modelled from the spec: the external per-record code renderer
`kruntime.WriteSwaggerDocFunc` is missing from the sources; the spec says it
produces "the externally-rendered per-record documentation code", text
referencing each field name and its description.  The model emits one
documentation block per record. -/
def specRenderer : Renderer := fun docs =>
  .ok (String.join (docs.map (fun t =>
    "// Swagger documentation for " ++ t.typeName ++ "\n" ++
    String.join (t.fields.map (fun f =>
      "// \"" ++ f.1 ++ "\": \"" ++ f.2 ++ "\"\n")))))

/-- Modelled from the spec: the external canonical source formatter
`format.Source` is missing from the sources; the spec treats it as a black
box that is "the sole source of whitespace/structural normalization".  The
model treats the assembled text as already canonical and returns it
unchanged, reporting no error. -/
def specFormatter : Formatter := fun s => .ok s

deriving instance DecidableEq for Except

/-- A single record for type `Pod` whose field `Spec` has an empty
description: the undocumented-field sample input. -/
def podUndocumented : List DocumentationRecord := [⟨"Pod", [("Spec", "")]⟩]

/-- A single record for type `Pod` whose field `Spec` is documented
`desired state`: the sample input of the spec's `widgets` scenario. -/
def podDocumented : List DocumentationRecord := [⟨"Pod", [("Spec", "desired state")]⟩]

/-- The bytes `generateSwaggerDocs` produces (under the spec-modelled
renderer and formatter) for `widgets` and `podDocumented`. -/
def widgetsBytes : String :=
  assembledSource "widgets"
    "// Swagger documentation for Pod\n// \"Spec\": \"desired state\"\n"

/-- The bytes `generateSwaggerDocs` produces (under the spec-modelled
renderer and formatter) for `widgets` and `podUndocumented`. -/
def undocumentedBytes : String :=
  assembledSource "widgets" "// Swagger documentation for Pod\n// \"Spec\": \"\"\n"

/-- Whether a verification result is specifically a ReadError. -/
def isReadError : Except VerifyError Unit → Bool
  | .error (.readError _) => true
  | _ => false

/-- Whether `pat` occurs as a contiguous run inside `s` (substring test on
the character lists, used to state the `widgets` scenario). -/
def containsSub (pat : List Char) : List Char → Bool
  | [] => pat.isEmpty
  | c :: t => pat.isPrefixOf (c :: t) || containsSub pat t

/-- Helper: when the baseline file is readable and regeneration succeeds,
`verifyRest` runs every remaining stage, keeps the file system, and the
result is decided exactly by byte equality. -/
theorem verifyRest_read_ok (render : Renderer) (formatSource : Formatter)
    (fs : FS) (p path : String) (docsChecked : List DocumentationRecord)
    (w : List String) (data g : String)
    (hfile : fs path = some data)
    (hgen : generateSwaggerDocs render formatSource p docsChecked = .ok g) :
    verifyRest render formatSource fs p path docsChecked w =
      ⟨if data = g then .ok () else .error .staleError, w,
        [.completenessCheck, .readBaseline, .regenerate, .compare], fs⟩ := by
  unfold verifyRest readFile
  rw [hfile, hgen]
  by_cases h : data = g <;> simp [h]

/-- Helper: when the completeness checker succeeds and its policy gate
passes (no missing docs, or `enforceComments` is false), `verifySwaggerDocs`
is `verifyRest` on the records the checker returned, for some warning list. -/
theorem verify_gate (checker : Checker) (render : Renderer)
    (formatSource : Formatter) (fs : FS) (p path : String)
    (docs docsChecked : List DocumentationRecord) (ec : Bool)
    (rc : Nat) (listing : String)
    (hc : checker docs = .ok (rc, listing, docsChecked))
    (hgate : ¬(0 < rc ∧ ec = true)) :
    ∃ w, verifySwaggerDocs checker render formatSource fs p path docs ec =
      verifyRest render formatSource fs p path docsChecked w := by
  unfold verifySwaggerDocs
  rw [hc]
  by_cases hrc : 0 < rc
  · have hec : ec = false := by
      cases ec
      · rfl
      · exact absurd ⟨hrc, rfl⟩ hgate
    subst hec
    exact ⟨[missingDocsWarning rc listing], by simp [hrc]⟩
  · exact ⟨[], by simp [hrc]⟩

/-- Claim C1, counterexample: generation succeeds on `podUndocumented`, the
generated bytes are written to `docs.go`, yet `verify` with the same records
and `enforceComments = true` fails (with MissingDocsError instead of
succeeding), so the round trip does not always succeed. -/
theorem C1_roundtrip_counterexample :
    generateSwaggerDocs specRenderer specFormatter "widgets" podUndocumented =
      .ok undocumentedBytes ∧
    (verifySwaggerDocs specChecker specRenderer specFormatter
      (writeFile emptyFS "docs.go" undocumentedBytes) "widgets" "docs.go"
      podUndocumented true).result =
      .error (.missingDocsError 1 "Pod.Spec\n") ∧
    (verifySwaggerDocs specChecker specRenderer specFormatter
      (writeFile emptyFS "docs.go" undocumentedBytes) "widgets" "docs.go"
      podUndocumented true).result ≠ .ok () := by
  refine ⟨rfl, rfl, ?_⟩
  decide

/-- Claim C1 (amended): if the completeness checker succeeds and its policy
gate passes (zero missing count, or `enforceComments` is false), and
generation produces the same bytes on the original records and on the
records the checker returned, then `generate`, writing the result, and
`verify` against that file with the same records succeeds. -/
theorem C1_roundtrip (checker : Checker) (render : Renderer)
    (formatSource : Formatter) (fs : FS) (p path : String)
    (docs docsChecked : List DocumentationRecord) (ec : Bool)
    (rc : Nat) (listing : String) (g : String)
    (hc : checker docs = .ok (rc, listing, docsChecked))
    (hgate : ¬(0 < rc ∧ ec = true))
    (_hgen : generateSwaggerDocs render formatSource p docs = .ok g)
    (hgen' : generateSwaggerDocs render formatSource p docsChecked = .ok g) :
    (verifySwaggerDocs checker render formatSource (writeFile fs path g)
      p path docs ec).result = .ok () := by
  obtain ⟨w, hw⟩ := verify_gate checker render formatSource
    (writeFile fs path g) p path docs docsChecked ec rc listing hc hgate
  rw [hw, verifyRest_read_ok render formatSource _ p path docsChecked w g g
    (by unfold writeFile; simp) hgen']
  simp

/-- Claim C1 witness: a concrete fully documented record collection on which
the round trip succeeds with `enforceComments = true`. -/
theorem C1_roundtrip_witness :
    (verifySwaggerDocs specChecker specRenderer specFormatter
      (writeFile emptyFS "docs.go" widgetsBytes) "widgets" "docs.go"
      podDocumented true).result = .ok () :=
  C1_roundtrip specChecker specRenderer specFormatter emptyFS "widgets"
    "docs.go" podDocumented podDocumented true 0 "" widgetsBytes rfl
    (by decide) rfl rfl

/-- Claim C2: once the completeness gate passes, the baseline is readable
with contents `data`, and regeneration yields `g`, verification succeeds
exactly when `data = g`, and any differing contents (hence any single-byte
change, and the empty file) fail with StaleError. -/
theorem C2_exact_byte_comparison (checker : Checker) (render : Renderer)
    (formatSource : Formatter) (fs : FS) (p path : String)
    (docs docsChecked : List DocumentationRecord) (ec : Bool)
    (rc : Nat) (listing : String) (data g : String)
    (hc : checker docs = .ok (rc, listing, docsChecked))
    (hgate : ¬(0 < rc ∧ ec = true))
    (hfile : fs path = some data)
    (hgen : generateSwaggerDocs render formatSource p docsChecked = .ok g) :
    ((verifySwaggerDocs checker render formatSource fs p path docs ec).result =
        .ok () ↔ data = g) ∧
    (data ≠ g →
      (verifySwaggerDocs checker render formatSource fs p path docs ec).result =
        .error .staleError) := by
  obtain ⟨w, hw⟩ := verify_gate checker render formatSource fs p path docs
    docsChecked ec rc listing hc hgate
  rw [hw, verifyRest_read_ok render formatSource fs p path docsChecked w data g
    hfile hgen]
  constructor
  · by_cases h : data = g <;> simp [h]
  · intro h; simp [h]

/-- Claim C2 witness: with a one-byte-different baseline (a trailing space
added to the generated bytes) verification fails with StaleError, and the
equivalence instantiates to a false left-hand side. -/
theorem C2_exact_byte_comparison_witness :
    ((verifySwaggerDocs specChecker specRenderer specFormatter
        (writeFile emptyFS "docs.go" (widgetsBytes ++ " ")) "widgets" "docs.go"
        podDocumented true).result = .ok () ↔ widgetsBytes ++ " " = widgetsBytes) ∧
    (widgetsBytes ++ " " ≠ widgetsBytes →
      (verifySwaggerDocs specChecker specRenderer specFormatter
        (writeFile emptyFS "docs.go" (widgetsBytes ++ " ")) "widgets" "docs.go"
        podDocumented true).result = .error .staleError) :=
  C2_exact_byte_comparison specChecker specRenderer specFormatter
    (writeFile emptyFS "docs.go" (widgetsBytes ++ " ")) "widgets" "docs.go"
    podDocumented podDocumented true 0 "" (widgetsBytes ++ " ") widgetsBytes rfl
    (by decide) (by unfold writeFile; simp) rfl

/-- Helper: a record collection containing a field with an empty description
has a positive missing-fields count. -/
theorem missingFields_pos (docs : List DocumentationRecord)
    (h : ∃ t ∈ docs, ∃ f ∈ t.fields, f.2 = "") :
    0 < (missingFields docs).length := by
  obtain ⟨t, ht, f, hf, hdoc⟩ := h
  have hmem : (t.typeName, f.1) ∈ missingFields docs := by
    unfold missingFields
    rw [List.mem_flatten]
    refine ⟨_, List.mem_map_of_mem _ ht, ?_⟩
    rw [List.mem_filterMap]
    exact ⟨f, hf, by simp [hdoc]⟩
  exact List.length_pos_of_mem hmem

/-- Claim C3: with at least one undocumented field and
`enforceComments = true`, verification fails with MissingDocsError carrying
the count and listing, after running only the completeness-check stage
(never the read, regeneration, or comparison stages). -/
theorem C3_missing_docs_enforced (render : Renderer) (formatSource : Formatter)
    (fs : FS) (p path : String) (docs : List DocumentationRecord)
    (h : ∃ t ∈ docs, ∃ f ∈ t.fields, f.2 = "") :
    verifySwaggerDocs specChecker render formatSource fs p path docs true =
      ⟨.error (.missingDocsError (missingFields docs).length
          (String.join ((missingFields docs).map
            (fun q => q.1 ++ "." ++ q.2 ++ "\n")))),
        [], [.completenessCheck], fs⟩ := by
  have hpos := missingFields_pos docs h
  unfold verifySwaggerDocs specChecker
  simp [hpos]

/-- Claim C3 witness: the undocumented `Pod.Spec` record with
`enforceComments = true`. -/
theorem C3_missing_docs_enforced_witness :
    verifySwaggerDocs specChecker specRenderer specFormatter emptyFS "widgets"
      "docs.go" podUndocumented true =
      ⟨.error (.missingDocsError (missingFields podUndocumented).length
          (String.join ((missingFields podUndocumented).map
            (fun q => q.1 ++ "." ++ q.2 ++ "\n")))),
        [], [.completenessCheck], emptyFS⟩ :=
  C3_missing_docs_enforced specRenderer specFormatter emptyFS "widgets"
    "docs.go" podUndocumented (by decide)

/-- Claim C4: with at least one undocumented field and
`enforceComments = false`, verification only logs the non-fatal warning,
runs every remaining stage, and succeeds when the baseline matches the
regenerated bytes. -/
theorem C4_missing_docs_warn_only (render : Renderer) (formatSource : Formatter)
    (fs : FS) (p path : String) (docs : List DocumentationRecord) (data g : String)
    (h : ∃ t ∈ docs, ∃ f ∈ t.fields, f.2 = "")
    (hfile : fs path = some data)
    (hgen : generateSwaggerDocs render formatSource p docs = .ok g)
    (hmatch : data = g) :
    verifySwaggerDocs specChecker render formatSource fs p path docs false =
      ⟨.ok (),
        [missingDocsWarning (missingFields docs).length
          (String.join ((missingFields docs).map
            (fun q => q.1 ++ "." ++ q.2 ++ "\n")))],
        [.completenessCheck, .readBaseline, .regenerate, .compare], fs⟩ := by
  have hpos := missingFields_pos docs h
  unfold verifySwaggerDocs specChecker
  simp only [hpos, if_true, Bool.false_eq_true, if_false, if_pos]
  rw [verifyRest_read_ok render formatSource fs p path docs _ data g hfile hgen]
  simp [hmatch]

/-- Claim C4 witness: the undocumented `Pod.Spec` record with
`enforceComments = false` and a matching baseline file. -/
theorem C4_missing_docs_warn_only_witness :
    verifySwaggerDocs specChecker specRenderer specFormatter
      (writeFile emptyFS "docs.go" undocumentedBytes) "widgets" "docs.go"
      podUndocumented false =
      ⟨.ok (),
        [missingDocsWarning (missingFields podUndocumented).length
          (String.join ((missingFields podUndocumented).map
            (fun q => q.1 ++ "." ++ q.2 ++ "\n")))],
        [.completenessCheck, .readBaseline, .regenerate, .compare],
        writeFile emptyFS "docs.go" undocumentedBytes⟩ :=
  C4_missing_docs_warn_only specRenderer specFormatter
    (writeFile emptyFS "docs.go" undocumentedBytes) "widgets" "docs.go"
    podUndocumented undocumentedBytes undocumentedBytes (by decide)
    (by unfold writeFile; simp) rfl rfl

/-- Claim C5, counterexample: with an undocumented field and
`enforceComments = true`, verification on a nonexistent file fails with
MissingDocsError, not ReadError, so a nonexistent file does not yield a
ReadError for every records collection. -/
theorem C5_read_error_counterexample :
    (verifySwaggerDocs specChecker specRenderer specFormatter emptyFS "widgets"
      "docs.go" podUndocumented true).result =
      .error (.missingDocsError 1 "Pod.Spec\n") ∧
    isReadError (verifySwaggerDocs specChecker specRenderer specFormatter
      emptyFS "widgets" "docs.go" podUndocumented true).result = false := by
  exact ⟨rfl, rfl⟩

/-- Claim C5 (amended): once the completeness gate passes (the checker
succeeds with zero missing count, or `enforceComments` is false), a file
path the file system cannot read makes verification fail with ReadError,
for either value of `enforceComments`. -/
theorem C5_read_error (checker : Checker) (render : Renderer)
    (formatSource : Formatter) (fs : FS) (p path : String)
    (docs docsChecked : List DocumentationRecord) (ec : Bool)
    (rc : Nat) (listing : String)
    (hc : checker docs = .ok (rc, listing, docsChecked))
    (hgate : ¬(0 < rc ∧ ec = true))
    (hfile : fs path = none) :
    (verifySwaggerDocs checker render formatSource fs p path docs ec).result =
      .error (.readError ("error reading existing swagger docs file: " ++
        ("open " ++ path ++ ": no such file or directory"))) := by
  obtain ⟨w, hw⟩ := verify_gate checker render formatSource fs p path docs
    docsChecked ec rc listing hc hgate
  rw [hw]
  unfold verifyRest readFile
  rw [hfile]

/-- Claim C5 witness: a fully documented record collection and the empty
file system, for both values of `enforceComments`. -/
theorem C5_read_error_witness :
    (verifySwaggerDocs specChecker specRenderer specFormatter emptyFS "widgets"
      "docs.go" podDocumented true).result =
      .error (.readError ("error reading existing swagger docs file: " ++
        ("open " ++ "docs.go" ++ ": no such file or directory"))) ∧
    (verifySwaggerDocs specChecker specRenderer specFormatter emptyFS "widgets"
      "docs.go" podDocumented false).result =
      .error (.readError ("error reading existing swagger docs file: " ++
        ("open " ++ "docs.go" ++ ": no such file or directory"))) :=
  ⟨C5_read_error specChecker specRenderer specFormatter emptyFS "widgets"
      "docs.go" podDocumented podDocumented true 0 "" rfl (by decide) rfl,
    C5_read_error specChecker specRenderer specFormatter emptyFS "widgets"
      "docs.go" podDocumented podDocumented false 0 "" rfl (by decide) rfl⟩

set_option maxRecDepth 100000 in
/-- Claim C6: on `("widgets", podDocumented)` generation succeeds (no
formatting error), and the produced bytes start with the package line,
contain the start marker, the field name `Spec`, the description
`desired state`, and the end marker. -/
theorem C6_widgets_scenario :
    generateSwaggerDocs specRenderer specFormatter "widgets" podDocumented =
      .ok widgetsBytes ∧
    "package widgets\n".toList.isPrefixOf widgetsBytes.toList = true ∧
    containsSub "// AUTO-GENERATED FUNCTIONS START HERE".toList
      widgetsBytes.toList = true ∧
    containsSub "Spec".toList widgetsBytes.toList = true ∧
    containsSub "desired state".toList widgetsBytes.toList = true ∧
    containsSub "// AUTO-GENERATED FUNCTIONS END HERE".toList
      widgetsBytes.toList = true := by
  refine ⟨rfl, ?_, ?_, ?_, ?_, ?_⟩ <;> decide

/-- Claim C7: generation depends only on what the renderer returns for the
given records and on the formatter's behaviour, so two calls whose renderer
and formatter agree (in particular, two calls with the same deterministic
services and identical inputs) produce identical bytes. -/
theorem C7_deterministic (r₁ r₂ : Renderer) (f₁ f₂ : Formatter)
    (p : String) (docs : List DocumentationRecord)
    (hr : r₁ docs = r₂ docs) (hf : ∀ s, f₁ s = f₂ s) :
    generateSwaggerDocs r₁ f₁ p docs = generateSwaggerDocs r₂ f₂ p docs := by
  have hfe : f₁ = f₂ := funext hf
  unfold generateSwaggerDocs
  rw [hr, hfe]

/-- Claim C7 witness: two calls with the spec-modelled renderer and formatter
on the `widgets` input. -/
theorem C7_deterministic_witness :
    generateSwaggerDocs specRenderer specFormatter "widgets" podDocumented =
      generateSwaggerDocs specRenderer specFormatter "widgets" podDocumented :=
  C7_deterministic specRenderer specRenderer specFormatter specFormatter
    "widgets" podDocumented rfl (fun _ => rfl)

/-- Claim C8: when the renderer fails on the records, generation returns an
error (RenderError) and no bytes; when the renderer succeeds but the
formatter rejects the assembled text, generation returns an error
(FormatError) and no bytes. -/
theorem C8_failure_propagation (render : Renderer) (formatSource : Formatter)
    (p : String) (docs : List DocumentationRecord) :
    (∀ e, render docs = .error e →
      generateSwaggerDocs render formatSource p docs =
        .error (.renderError ("error generating swagger docs for types: " ++ e))) ∧
    (∀ rendered e, render docs = .ok rendered →
      formatSource (assembledSource p rendered) = .error e →
      generateSwaggerDocs render formatSource p docs =
        .error (.formatError ("could not format output data: " ++ e))) := by
  constructor
  · intro e he
    unfold generateSwaggerDocs
    rw [he]
  · intro rendered e hrend hfmt
    have hstep : generateSwaggerDocs render formatSource p docs =
        match formatSource (assembledSource p rendered) with
        | .error e =>
          .error (.formatError ("could not format output data: " ++ e))
        | .ok formattedOut => .ok formattedOut := by
      unfold generateSwaggerDocs
      rw [hrend]
    rw [hstep, hfmt]

/-- Claim C8 witness: a renderer that always fails, and a formatter that
always fails, exercised on the `widgets` input. -/
theorem C8_failure_propagation_witness :
    generateSwaggerDocs (fun _ => .error "boom") specFormatter "widgets"
      podDocumented =
      .error (.renderError ("error generating swagger docs for types: " ++ "boom")) ∧
    generateSwaggerDocs specRenderer (fun _ => .error "bad") "widgets"
      podDocumented =
      .error (.formatError ("could not format output data: " ++ "bad")) :=
  ⟨(C8_failure_propagation (fun _ => .error "boom") specFormatter "widgets"
      podDocumented).1 "boom" rfl,
    (C8_failure_propagation specRenderer (fun _ => .error "bad") "widgets"
      podDocumented).2
      "// Swagger documentation for Pod\n// \"Spec\": \"desired state\"\n"
      "bad" rfl rfl⟩

/-- Helper: `verifyRest` returns the file system it was given, whatever the
outcome. -/
theorem verifyRest_fs (render : Renderer) (formatSource : Formatter) (fs : FS)
    (p path : String) (docsChecked : List DocumentationRecord)
    (w : List String) :
    (verifyRest render formatSource fs p path docsChecked w).fs = fs := by
  unfold verifyRest readFile
  cases hf : fs path with
  | none => rfl
  | some data =>
    cases generateSwaggerDocs render formatSource p docsChecked with
    | error e => rfl
    | ok g => by_cases h : data = g <;> simp [h]

/-- Claim C9: for every input and every outcome, verification leaves the
file system exactly as it found it; generation does not touch the file
system at all (`generateSwaggerDocs` neither receives nor returns one). -/
theorem C9_no_file_writes (checker : Checker) (render : Renderer)
    (formatSource : Formatter) (fs : FS) (p path : String)
    (docs : List DocumentationRecord) (ec : Bool) :
    (verifySwaggerDocs checker render formatSource fs p path docs ec).fs = fs := by
  unfold verifySwaggerDocs
  cases checker docs with
  | error e => rfl
  | ok x =>
    obtain ⟨rc, listing, docsChecked⟩ := x
    by_cases hrc : 0 < rc
    · cases ec
      · simpa [hrc] using verifyRest_fs render formatSource fs p path
          docsChecked [missingDocsWarning rc listing]
      · simp [hrc]
    · simpa [hrc] using verifyRest_fs render formatSource fs p path
        docsChecked []

/-- Claim C10: when the completeness checker itself fails, verification
stops at once for either value of `enforceComments`: the result is the
wrapped checker error (none of the spec's MissingDocsError / ReadError /
FormatError / StaleError constructors), no warning is logged, only the
completeness-check stage ran (the baseline was not read and generation did
not run), and the file system is untouched. -/
theorem C10_checker_error (checker : Checker) (render : Renderer)
    (formatSource : Formatter) (fs : FS) (p path : String)
    (docs : List DocumentationRecord) (ec : Bool) (e : String)
    (hc : checker docs = .error e) :
    verifySwaggerDocs checker render formatSource fs p path docs ec =
      ⟨.error (.checkerError ("could not verify existing docs: " ++ e)),
        [], [.completenessCheck], fs⟩ := by
  unfold verifySwaggerDocs
  rw [hc]

/-- Claim C10 witness: a checker that fails with message `x`, for both
values of `enforceComments`. -/
theorem C10_checker_error_witness :
    verifySwaggerDocs (fun _ => .error "x") specRenderer specFormatter emptyFS
      "widgets" "docs.go" podDocumented true =
      ⟨.error (.checkerError ("could not verify existing docs: " ++ "x")),
        [], [.completenessCheck], emptyFS⟩ ∧
    verifySwaggerDocs (fun _ => .error "x") specRenderer specFormatter emptyFS
      "widgets" "docs.go" podDocumented false =
      ⟨.error (.checkerError ("could not verify existing docs: " ++ "x")),
        [], [.completenessCheck], emptyFS⟩ :=
  ⟨C10_checker_error (fun _ => .error "x") specRenderer specFormatter emptyFS
      "widgets" "docs.go" podDocumented true "x" rfl,
    C10_checker_error (fun _ => .error "x") specRenderer specFormatter emptyFS
      "widgets" "docs.go" podDocumented false "x" rfl⟩
